import Mathlib

/-!
Shallow embedding of the primrose-mcp-gitlab core: the multi-tenant credential
resolver (src/types/env.ts), the GitLab HTTP client's two request executors
(src/types/entities.ts, GitLabClientImpl), and the pagination utilities
(src/utils/pagination.ts). JavaScript `undefined`/`null` is modelled by
`Option`, JS string truthiness (empty string is falsy) by `jsTruthy`, the
value set of `parseInt` (an integer or NaN) by `JsNum`, and thrown errors by
`Except`/`FetchResult`.
-/

namespace GitlabMcp

/-- JS truthiness of a string-or-absent value: `undefined`, `null` and the
empty string are falsy; every other string is truthy. -/
def jsTruthy : Option String → Bool
  | none => false
  | some s => s ≠ ""

/-- A JS number as produced by `parseInt`: either an integer or NaN. -/
inductive JsNum where
  | nan
  | int (n : Int)
  deriving DecidableEq, Repr

/-- Numeric value of a digit run, most significant first (how repeated
`acc * 10 + digit` accumulates in a base-10 integer parse). -/
def digitsVal (l : List Char) : Nat :=
  l.foldl (fun acc c => acc * 10 + (c.toNat - 48)) 0

/-- JS `parseInt(s, 10)`: skip leading whitespace, read an optional sign,
then the longest leading digit run; the result is NaN when that run is
empty, and ignores any trailing garbage after the digits. -/
def jsParseInt (s : String) : JsNum :=
  let l := s.data.dropWhile (fun c => c = ' ' || c = '\t' || c = '\n' || c = '\r')
  match l with
  | '-' :: rest =>
      let digits := rest.takeWhile Char.isDigit
      if digits.isEmpty then .nan else .int (-(digitsVal digits : Int))
  | '+' :: rest =>
      let digits := rest.takeWhile Char.isDigit
      if digits.isEmpty then .nan else .int (digitsVal digits)
  | rest =>
      let digits := rest.takeWhile Char.isDigit
      if digits.isEmpty then .nan else .int (digitsVal digits)

/-- Response headers as an association list; `hGet` is `Headers.get`,
returning the value or null (`none`). -/
def hGet (hs : List (String × String)) (name : String) : Option String :=
  (hs.find? (fun p => p.1 = name)).map (fun p => p.2)

/-- Modelled from the spec: the error taxonomy of `src/utils/errors.ts` is
imported by entities.ts and formatters.ts but that file is not among the
sources. Spec section 4.1 gives each kind's payload: a human message on all
three; `retryAfterSeconds` on the rate-limit kind; the upstream HTTP status
on the generic API kind. `jsError` models the built-in JS `Error` (thrown by
`validateCredentials` in env.ts), and `typeError` the runtime TypeError
raised by a property access on `undefined`. `retryAfterSeconds` is a `JsNum`
because `parseInt` can hand the constructor NaN. -/
inductive JsError where
  | jsError (message : String)
  | authenticationError (message : String)
  | rateLimitError (message : String) (retryAfterSeconds : JsNum)
  | gitLabApiError (message : String) (status : Nat)
  | typeError (message : String)
  deriving DecidableEq, Repr

/-- The `.message` property every modelled error carries. -/
def JsError.message : JsError → String
  | .jsError m => m
  | .authenticationError m => m
  | .rateLimitError m _ => m
  | .gitLabApiError m _ => m
  | .typeError m => m

/-- Whether an error is an `instanceof AuthenticationError`. -/
def JsError.isAuthenticationError : JsError → Bool
  | .authenticationError _ => true
  | _ => false

/-- TenantCredentials (env.ts): per-call authentication context parsed from
the X-GitLab-Token, X-GitLab-Base-URL and X-GitLab-Access-Token headers. -/
structure TenantCredentials where
  privateToken : Option String
  baseUrl : Option String
  accessToken : Option String
  deriving DecidableEq, Repr

/-- Message of the plain Error thrown by validateCredentials (env.ts). -/
def missingCredsMsg : String :=
  "Missing credentials. Provide either X-GitLab-Token or X-GitLab-Access-Token header."

/-- validateCredentials (env.ts lines 48-54): throws a plain `Error` when
neither token is truthy. -/
def validateCredentials (c : TenantCredentials) : Except JsError Unit :=
  if !(jsTruthy c.privateToken) && !(jsTruthy c.accessToken) then
    .error (.jsError missingCredsMsg)
  else
    .ok ()

/-- Outcome of the worker's /mcp POST boundary: an early 401 JSON response,
or dispatch into the per-tenant client. -/
inductive BoundaryOutcome where
  | rejected (status : Nat) (message : String)
  | dispatched (credentials : TenantCredentials)
  deriving DecidableEq, Repr

/-- The /mcp POST handler (main entry point, fetch handler): parse the
tenant credentials, run `validateCredentials`, and on a thrown error respond
401 with the error's message before any client is constructed; otherwise
build the per-tenant server and dispatch. -/
def mcpBoundary (c : TenantCredentials) : BoundaryOutcome :=
  match validateCredentials c with
  | .error e => .rejected 401 e.message
  | .ok _ => .dispatched c

/-- The AuthenticationError getAuthHeaders throws when neither token is
truthy (entities.ts lines 1071-1073). -/
def noCredsError : JsError :=
  .authenticationError "No credentials provided. Include X-GitLab-Token or X-GitLab-Access-Token header."

/-- getAuthHeaders (entities.ts lines 1056-1074): bearer token first, then
private token, else throw AuthenticationError. -/
def getAuthHeaders (c : TenantCredentials) : Except JsError (List (String × String)) :=
  if jsTruthy c.accessToken then
    .ok [("Authorization", "Bearer " ++ c.accessToken.getD ""),
         ("Content-Type", "application/json")]
  else if jsTruthy c.privateToken then
    .ok [("PRIVATE-TOKEN", c.privateToken.getD ""),
         ("Content-Type", "application/json")]
  else
    .error noCredsError

/-- Number of authentication headers (Authorization or PRIVATE-TOKEN
entries) in a header list. -/
def countAuthHeaders (hs : List (String × String)) : Nat :=
  (hs.filter (fun p => p.1 == "Authorization" || p.1 == "PRIVATE-TOKEN")).length

/-- The error-path view of a response body (spec section 6: error bodies are
JSON objects with an optional `message` or `error` string field); `notJson`
covers any body on which `JSON.parse` throws, including non-object JSON. -/
inductive ErrorBody where
  | notJson
  | jsonObj (message : Option String) (error : Option String)
  deriving DecidableEq, Repr

/-- JS `a || b` on an optional string against a string default: the field
wins only when present and non-empty (truthy). -/
def jsOrString : Option String → String → String
  | some s, d => if s = "" then d else s
  | none, d => d

/-- Error-message extraction of the executors (entities.ts lines 1096-1105):
start from `API error: status`, then let `errorJson.message` or
`errorJson.error` override it via JS `||`. -/
def extractErrorMessage (body : ErrorBody) (status : Nat) : String :=
  let dflt := "API error: " ++ toString status
  match body with
  | .notJson => dflt
  | .jsonObj m e => jsOrString m (jsOrString e dflt)

/-- `retryAfter ? parseInt(retryAfter, 10) : 60` (entities.ts lines
1088-1089): a truthy (present, non-empty) header is handed to `parseInt`
(possibly NaN); a null or empty header yields 60. -/
def computeRetryAfter (h : Option String) : JsNum :=
  match h with
  | some s => if s = "" then .int 60 else jsParseInt s
  | none => .int 60

/-- `response.ok`: status in [200, 300). -/
def respOk (status : Nat) : Bool :=
  200 ≤ status && status < 300

/-- The AuthenticationError thrown by both executors on 401/403. -/
def authFailedError : JsError :=
  .authenticationError "Authentication failed. Check your GitLab credentials."

/-- The status-classification ladder shared by `request` (entities.ts lines
1087-1106) and `requestWithPagination` (lines 1136-1155): 429 first, then
401/403, then any other non-ok status; `none` means no error thrown. -/
def classifyStatus (status : Nat) (headers : List (String × String))
    (body : ErrorBody) : Option JsError :=
  if status = 429 then
    some (.rateLimitError "Rate limit exceeded" (computeRetryAfter (hGet headers "Retry-After")))
  else if status = 401 || status = 403 then
    some authFailedError
  else if !(respOk status) then
    some (.gitLabApiError (extractErrorMessage body status) status)
  else
    none

/-- One upstream HTTP response: status, headers, the error-path body view,
and the JSON body the success path parses (a `T` for `request`, a `T[]` for
`requestWithPagination`). -/
structure HttpResponse (α : Type) where
  status : Nat
  headers : List (String × String)
  errorBody : ErrorBody
  jsonBody : α
  deriving DecidableEq, Repr

/-- Result of one client call, distinguishing whether the transport was
reached: `getAuthHeaders` is evaluated while building the `fetch` arguments,
so its throw prevents any HTTP call (`noFetch`). -/
inductive FetchResult (α : Type) where
  | noFetch (e : JsError)
  | fetched (r : Except JsError α)
  deriving Repr

/-- The single-resource executor `request` (entities.ts lines 1076-1113):
auth headers first (throwing before fetch when absent), then the
classification ladder, then 204 as bodyless success (`none`), else the
parsed JSON body. -/
def request {α : Type} (c : TenantCredentials) (resp : HttpResponse α) :
    FetchResult (Option α) :=
  match getAuthHeaders c with
  | .error e => .noFetch e
  | .ok _ =>
    .fetched (match classifyStatus resp.status resp.headers resp.errorBody with
      | some e => .error e
      | none => if resp.status = 204 then .ok none else .ok (some resp.jsonBody))

/-- The paginated-result envelope (entities.ts interface PaginatedResponse):
items, count, optional total / page / nextPage / totalPages, hasMore. -/
structure PaginatedResponse (α : Type) where
  items : List α
  count : Nat
  total : Option JsNum
  hasMore : Bool
  page : Option JsNum
  nextPage : Option JsNum
  totalPages : Option JsNum
  deriving DecidableEq, Repr

/-- `header ? parseInt(header, 10) : undefined`: undefined when the header
is null or empty, otherwise the `parseInt` value (possibly NaN). -/
def parsePaginationHeader (headers : List (String × String)) (name : String) :
    Option JsNum :=
  match hGet headers name with
  | none => none
  | some s => if s = "" then none else some (jsParseInt s)

/-- The success tail of `requestWithPagination` (entities.ts lines
1157-1176): parse the array, read X-Total, X-Total-Pages and X-Next-Page
(X-Page is not read; the envelope's `page` stays undefined), and set
`hasMore := nextPage !== undefined`. -/
def paginateBody {α : Type} (items : List α) (headers : List (String × String)) :
    PaginatedResponse α :=
  let total := parsePaginationHeader headers "X-Total"
  let totalPages := parsePaginationHeader headers "X-Total-Pages"
  let nextPage := parsePaginationHeader headers "X-Next-Page"
  ⟨items, items.length, total, nextPage.isSome, none, nextPage, totalPages⟩

/-- The paginated-list executor `requestWithPagination` (entities.ts lines
1115-1176): same auth-then-classify prefix as `request`, then the
pagination-envelope construction on success. -/
def requestWithPagination {α : Type} (c : TenantCredentials)
    (resp : HttpResponse (List α)) : FetchResult (PaginatedResponse α) :=
  match getAuthHeaders c with
  | .error e => .noFetch e
  | .ok _ =>
    .fetched (match classifyStatus resp.status resp.headers resp.errorBody with
      | some e => .error e
      | none => .ok (paginateBody resp.jsonBody resp.headers))

/-- Pagination defaults (pagination.ts lines 12-15). -/
def PAGINATION_DEFAULTS_perPage : Int := 20

/-- Hard per-page ceiling (pagination.ts lines 12-15). -/
def PAGINATION_DEFAULTS_maxPerPage : Int := 100

/-- The generic pagination request shape (entities.ts PaginationParams). -/
structure PaginationParams where
  perPage : Option Int
  page : Option Int
  deriving DecidableEq, Repr

/-- JS `v || d` on an optional number: 0 (and NaN, not representable in a
caller-supplied integer here) is falsy. -/
def jsOrInt : Option Int → Int → Int
  | some n, d => if n = 0 then d else n
  | none, d => d

/-- Result of normalization: perPage made required, page passed through. -/
structure NormalizedPaginationParams where
  perPage : Int
  page : Option Int
  deriving DecidableEq, Repr

/-- normalizePaginationParams (pagination.ts lines 20-28):
`Math.min(params?.perPage || 20, maxPerPage)`, page passed through. -/
def normalizePaginationParams (params : Option PaginationParams)
    (maxPerPage : Int) : NormalizedPaginationParams :=
  ⟨min (jsOrInt (params.bind (fun p => p.perPage)) PAGINATION_DEFAULTS_perPage) maxPerPage,
   params.bind (fun p => p.page)⟩

/-- emptyPaginatedResponse (pagination.ts lines 33-39). -/
def emptyPaginatedResponse (α : Type) : PaginatedResponse α :=
  ⟨[], 0, none, false, none, none, none⟩

/-- The options bag of createPaginatedResponse (pagination.ts lines 46-52). -/
structure CreateOptions where
  total : Option JsNum
  page : Option JsNum
  totalPages : Option JsNum
  nextPage : Option JsNum
  hasMore : Option Bool
  deriving DecidableEq, Repr

/-- createPaginatedResponse (pagination.ts lines 44-63): count is the item
count; `hasMore` is the caller's value when supplied (`??` is nullish
coalescing, so an explicit false wins), else `nextPage !== undefined`. -/
def createPaginatedResponse {α : Type} (items : List α) (opts : CreateOptions) :
    PaginatedResponse α :=
  ⟨items, items.length, opts.total,
   opts.hasMore.getD opts.nextPage.isSome,
   opts.page, opts.nextPage, opts.totalPages⟩

/-- The record parseGitLabPaginationHeaders returns (pagination.ts 68-74). -/
structure PaginationMeta where
  total : Option JsNum
  totalPages : Option JsNum
  page : Option JsNum
  nextPage : Option JsNum
  perPage : Option JsNum
  deriving DecidableEq, Repr

/-- parseGitLabPaginationHeaders (pagination.ts lines 68-88): read X-Total,
X-Total-Pages, X-Page, X-Next-Page and X-Per-Page, each parsed when truthy
and undefined otherwise. -/
def parseGitLabPaginationHeaders (headers : List (String × String)) :
    PaginationMeta :=
  ⟨parsePaginationHeader headers "X-Total",
   parsePaginationHeader headers "X-Total-Pages",
   parsePaginationHeader headers "X-Page",
   parsePaginationHeader headers "X-Next-Page",
   parsePaginationHeader headers "X-Per-Page"⟩

/-- The subset of the GitLabUser entity the client itself reads (entities.ts
interface GitLabUser; only `username` is consumed, by testConnection). -/
structure GitLabUser where
  id : Int
  username : String
  name : String
  deriving DecidableEq, Repr

/-- The result shape of testConnection. -/
structure ConnectionResult where
  connected : Bool
  message : String
  user : Option GitLabUser
  deriving DecidableEq, Repr

/-- testConnection (entities.ts lines 1196-1206) applied to the response of
its single getCurrentUser call (`request` on GET /user): success yields a
connected result whose message carries the username; any error thrown inside
the try block is caught and converted (`error instanceof Error ?
error.message : connection-failed`; every modelled error is an Error
instance). A 204 makes getCurrentUser resolve to `undefined`, so building
the success message throws a TypeError (reading .username of undefined)
still inside the try, caught like any other error; its modelled message
paraphrases the runtime's wording. -/
def testConnection (c : TenantCredentials) (resp : HttpResponse GitLabUser) :
    ConnectionResult :=
  match request c resp with
  | .noFetch e => ⟨false, e.message, none⟩
  | .fetched (.error e) => ⟨false, e.message, none⟩
  | .fetched (.ok none) =>
      ⟨false, "TypeError: cannot read username of undefined", none⟩
  | .fetched (.ok (some u)) => ⟨true, "Connected as " ++ u.username, some u⟩

/-- Characters encodeURIComponent leaves unescaped: ASCII letters, digits,
and - _ . ! ~ * apostrophe ( ). -/
def isUnreservedURI (c : Char) : Bool :=
  c.isAlpha || c.isDigit || c = '-' || c = '_' || c = '.' || c = '!' ||
    c = '~' || c = '*' || c = Char.ofNat 39 || c = '(' || c = ')'

/-- Uppercase hexadecimal digit. -/
def hexDigitChar : Nat → Char
  | 0 => '0' | 1 => '1' | 2 => '2' | 3 => '3' | 4 => '4'
  | 5 => '5' | 6 => '6' | 7 => '7' | 8 => '8' | 9 => '9'
  | 10 => 'A' | 11 => 'B' | 12 => 'C' | 13 => 'D' | 14 => 'E'
  | _ => 'F'

/-- UTF-8 bytes of a code point. -/
def utf8Bytes (n : Nat) : List Nat :=
  if n < 128 then [n]
  else if n < 2048 then [192 + n / 64, 128 + n % 64]
  else if n < 65536 then [224 + n / 4096, 128 + (n / 64) % 64, 128 + n % 64]
  else [240 + n / 262144, 128 + (n / 4096) % 64, 128 + (n / 64) % 64, 128 + n % 64]

/-- Percent-encode a byte list. -/
def percentBytes : List Nat → List Char
  | [] => []
  | b :: bs => '%' :: hexDigitChar (b / 16) :: hexDigitChar (b % 16) :: percentBytes bs

/-- encodeURIComponent on one character: unreserved characters pass through,
everything else becomes the percent-encoding of its UTF-8 bytes. -/
def encodeChar (c : Char) : List Char :=
  if isUnreservedURI c then [c] else percentBytes (utf8Bytes c.toNat)

/-- encodeURIComponent over a character list. -/
def encodeChars : List Char → List Char
  | [] => []
  | c :: cs => encodeChar c ++ encodeChars cs

/-- The JS builtin encodeURIComponent, applied by every client method to
path segments derived from caller input. -/
def encodeURIComponent (s : String) : String :=
  ⟨encodeChars s.data⟩

/-- getProject URL path (entities.ts lines 1229-1232):
`/projects/` ++ encodeURIComponent(String(projectId)). -/
def getProjectPath (projectId : String) : String :=
  "/projects/" ++ encodeURIComponent projectId

/-- getBranch URL path (entities.ts lines 1283-1287): both the project
identifier and the branch name are encoded. -/
def getBranchPath (projectId branchName : String) : String :=
  "/projects/" ++ encodeURIComponent projectId ++ "/repository/branches/" ++
    encodeURIComponent branchName

/-- Split a character list at every slash, the segment decomposition a URL
path undergoes on the server side. -/
def splitSlash : List Char → List (List Char)
  | [] => [[]]
  | c :: cs =>
    if c = '/' then [] :: splitSlash cs
    else
      match splitSlash cs with
      | [] => [[c]]
      | seg :: rest => (c :: seg) :: rest

/-- Sample credentials used by concrete witnesses. -/
def sampleCreds : TenantCredentials := ⟨some "secret", none, none⟩

/-! Helper lemmas. -/

theorem append_ne_empty_of_left (s t : String) (h : 0 < s.length) : s ++ t ≠ "" := by
  intro he
  have hl := congrArg String.length he
  rw [String.length_append] at hl
  simp at hl
  omega

theorem jsOrString_ne_empty (o : Option String) (d : String) (hd : d ≠ "") :
    jsOrString o d ≠ "" := by
  cases o with
  | none => exact hd
  | some s =>
    by_cases hs : s = ""
    · simpa [jsOrString, hs] using hd
    · simp [jsOrString, hs]

theorem extractErrorMessage_ne_empty (b : ErrorBody) (st : Nat) :
    extractErrorMessage b st ≠ "" := by
  have hd : ("API error: " ++ toString st) ≠ "" :=
    append_ne_empty_of_left _ _ (by decide)
  cases b with
  | notJson => simpa [extractErrorMessage] using hd
  | jsonObj m e =>
    simpa [extractErrorMessage] using
      jsOrString_ne_empty m _ (jsOrString_ne_empty e _ hd)

theorem getAuthHeaders_ok_of_token (c : TenantCredentials)
    (h : jsTruthy c.accessToken = true ∨ jsTruthy c.privateToken = true) :
    ∃ hs, getAuthHeaders c = Except.ok hs := by
  by_cases ha : jsTruthy c.accessToken
  · exact ⟨[("Authorization", "Bearer " ++ c.accessToken.getD ""),
            ("Content-Type", "application/json")], by simp [getAuthHeaders, ha]⟩
  · have hp : jsTruthy c.privateToken = true := by
      rcases h with h | h
      · exact absurd h ha
      · exact h
    exact ⟨[("PRIVATE-TOKEN", c.privateToken.getD ""),
            ("Content-Type", "application/json")], by simp [getAuthHeaders, ha, hp]⟩

theorem classifyStatus_of_401_403 (st : Nat) (hs : List (String × String))
    (b : ErrorBody) (h : st = 401 ∨ st = 403) :
    classifyStatus st hs b = some authFailedError := by
  rcases h with h | h <;> subst h <;> rfl

theorem classifyStatus_of_429 (st : Nat) (hs : List (String × String))
    (b : ErrorBody) (h : st = 429) :
    classifyStatus st hs b =
      some (.rateLimitError "Rate limit exceeded" (computeRetryAfter (hGet hs "Retry-After"))) := by
  subst h; rfl

theorem classifyStatus_of_failure (st : Nat) (hs : List (String × String))
    (b : ErrorBody) (h : respOk st = false)
    (h1 : st ≠ 429) (h2 : st ≠ 401) (h3 : st ≠ 403) :
    classifyStatus st hs b = some (.gitLabApiError (extractErrorMessage b st) st) := by
  simp [classifyStatus, h, h1, h2, h3]

theorem classifyStatus_none_of_ok (st : Nat) (hs : List (String × String))
    (b : ErrorBody) (h : respOk st = true) :
    classifyStatus st hs b = none := by
  have hb : 200 ≤ st ∧ st < 300 := by simpa [respOk] using h
  have h1 : st ≠ 429 := by omega
  have h2 : st ≠ 401 := by omega
  have h3 : st ≠ 403 := by omega
  simp [classifyStatus, h, h1, h2, h3]

theorem classifyStatus_message_ne_empty (st : Nat) (hs : List (String × String))
    (b : ErrorBody) (e : JsError) (h : classifyStatus st hs b = some e) :
    e.message ≠ "" := by
  unfold classifyStatus at h
  split at h
  · injection h with h
    subst h
    simp [JsError.message]
  · split at h
    · injection h with h
      subst h
      simp [authFailedError, JsError.message]
    · split at h
      · injection h with h
        subst h
        simpa [JsError.message] using extractErrorMessage_ne_empty b st
      · exact Option.noConfusion h

theorem request_throws {α : Type} (c : TenantCredentials) (resp : HttpResponse α)
    (hs : List (String × String)) (e : JsError)
    (hauth : getAuthHeaders c = .ok hs)
    (hcl : classifyStatus resp.status resp.headers resp.errorBody = some e) :
    request c resp = .fetched (.error e) := by
  simp [request, hauth, hcl]

theorem requestWithPagination_throws {α : Type} (c : TenantCredentials)
    (resp : HttpResponse (List α)) (hs : List (String × String)) (e : JsError)
    (hauth : getAuthHeaders c = .ok hs)
    (hcl : classifyStatus resp.status resp.headers resp.errorBody = some e) :
    requestWithPagination c resp = .fetched (.error e) := by
  simp [requestWithPagination, hauth, hcl]

theorem requestWithPagination_succeeds {α : Type} (c : TenantCredentials)
    (resp : HttpResponse (List α)) (hs : List (String × String))
    (hauth : getAuthHeaders c = .ok hs)
    (hcl : classifyStatus resp.status resp.headers resp.errorBody = none) :
    requestWithPagination c resp = .fetched (.ok (paginateBody resp.jsonBody resp.headers)) := by
  simp [requestWithPagination, hauth, hcl]

theorem requestWithPagination_ok_inv {α : Type} (c : TenantCredentials)
    (resp : HttpResponse (List α)) (p : PaginatedResponse α)
    (h : requestWithPagination c resp = .fetched (.ok p)) :
    p = paginateBody resp.jsonBody resp.headers := by
  unfold requestWithPagination at h
  split at h
  · exact FetchResult.noConfusion h
  · split at h
    · injection h with h
      exact Except.noConfusion h
    · injection h with h
      injection h with h
      exact h.symm

theorem request_noFetch_inv {α : Type} (c : TenantCredentials)
    (resp : HttpResponse α) (e : JsError) (h : request c resp = .noFetch e) :
    e = noCredsError := by
  unfold request at h
  split at h
  · rename_i e1 heq
    injection h with h
    subst h
    unfold getAuthHeaders at heq
    split at heq
    · exact Except.noConfusion heq
    · split at heq
      · exact Except.noConfusion heq
      · injection heq with heq
        exact heq.symm
  · exact FetchResult.noConfusion h

theorem request_error_inv {α : Type} (c : TenantCredentials)
    (resp : HttpResponse α) (e : JsError)
    (h : request c resp = .fetched (.error e)) :
    classifyStatus resp.status resp.headers resp.errorBody = some e := by
  unfold request at h
  split at h
  · exact FetchResult.noConfusion h
  · split at h
    · rename_i e1 hcl
      injection h with h
      injection h with h
      rw [hcl, h]
    · split at h
      · injection h with h
        exact Except.noConfusion h
      · injection h with h
        exact Except.noConfusion h

theorem hexDigitChar_ne_slash (n : Nat) : hexDigitChar n ≠ '/' := by
  rcases n with _|_|_|_|_|_|_|_|_|_|_|_|_|_|_|m
  all_goals first
    | decide
    | (show ('F' : Char) ≠ '/'
       decide)

theorem percentBytes_no_slash (bs : List Nat) : '/' ∉ percentBytes bs := by
  induction bs with
  | nil => simp [percentBytes]
  | cons b bs ih =>
    simp only [percentBytes, List.mem_cons]
    push_neg
    exact ⟨by decide, Ne.symm (hexDigitChar_ne_slash (b / 16)),
           Ne.symm (hexDigitChar_ne_slash (b % 16)), ih⟩

theorem encodeChar_no_slash (c : Char) : '/' ∉ encodeChar c := by
  unfold encodeChar
  split
  · rename_i hu
    intro hmem
    simp only [List.mem_singleton] at hmem
    subst hmem
    exact absurd hu (by decide)
  · exact percentBytes_no_slash _

theorem encodeChars_no_slash (l : List Char) : '/' ∉ encodeChars l := by
  induction l with
  | nil => simp [encodeChars]
  | cons c cs ih =>
    simp only [encodeChars, List.mem_append]
    push_neg
    exact ⟨encodeChar_no_slash c, ih⟩

theorem splitSlash_no_slash (l : List Char) (h : '/' ∉ l) : splitSlash l = [l] := by
  induction l with
  | nil => rfl
  | cons c cs ih =>
    rw [List.mem_cons] at h
    push_neg at h
    obtain ⟨h1, h2⟩ := h
    simp [splitSlash, Ne.symm h1, ih h2]

theorem splitSlash_append (l1 l2 : List Char) (h : '/' ∉ l1) :
    splitSlash (l1 ++ '/' :: l2) = l1 :: splitSlash l2 := by
  induction l1 with
  | nil => simp [splitSlash]
  | cons c cs ih =>
    rw [List.mem_cons] at h
    push_neg at h
    obtain ⟨h1, h2⟩ := h
    simp only [List.cons_append]
    simp [splitSlash, Ne.symm h1, ih h2]

/-! Claim theorems. -/

/-- C2: for every single-resource or paginated-list call whose HTTP
response has status 401 or 403, the thrown error is the AuthenticationError
of the shared ladder, regardless of the response body contents (the body is
universally quantified and never inspected on this path). -/
theorem c2_thrown_is_authentication_error_on_401_403 {α β : Type}
    (c : TenantCredentials) (resp1 : HttpResponse α) (resp2 : HttpResponse (List β))
    (hok : jsTruthy c.accessToken = true ∨ jsTruthy c.privateToken = true)
    (h1 : resp1.status = 401 ∨ resp1.status = 403)
    (h2 : resp2.status = 401 ∨ resp2.status = 403) :
    request c resp1 = .fetched (.error authFailedError) ∧
    requestWithPagination c resp2 = .fetched (.error authFailedError) ∧
    authFailedError.isAuthenticationError = true := by
  obtain ⟨hs, hauth⟩ := getAuthHeaders_ok_of_token c hok
  exact ⟨request_throws c resp1 hs _ hauth (classifyStatus_of_401_403 _ _ _ h1),
         requestWithPagination_throws c resp2 hs _ hauth (classifyStatus_of_401_403 _ _ _ h2),
         rfl⟩

/-- C2 witness: a 401 with a JSON body and a 403 with a non-JSON body both
throw the AuthenticationError. -/
theorem c2_thrown_is_authentication_error_on_401_403_witness :
    request sampleCreds (⟨401, [], .jsonObj (some "irrelevant") none, ()⟩ : HttpResponse Unit) =
      .fetched (.error authFailedError) ∧
    requestWithPagination sampleCreds (⟨403, [], .notJson, ([] : List Unit)⟩) =
      .fetched (.error authFailedError) :=
  have h := c2_thrown_is_authentication_error_on_401_403 sampleCreds
    (⟨401, [], .jsonObj (some "irrelevant") none, ()⟩ : HttpResponse Unit)
    (⟨403, [], .notJson, ([] : List Unit)⟩)
    (Or.inr rfl) (Or.inl rfl) (Or.inr rfl)
  ⟨h.1, h.2.1⟩

/-- C3 counterexample: a 429 whose Retry-After header is "abc" (present but
unparsable) produces retryAfterSeconds NaN, not the claimed default 60. -/
theorem c3_unparsable_retry_after_yields_nan :
    request sampleCreds (⟨429, [("Retry-After", "abc")], .notJson, ()⟩ : HttpResponse Unit) =
      .fetched (.error (.rateLimitError "Rate limit exceeded" .nan)) ∧
    JsNum.nan ≠ JsNum.int 60 :=
  ⟨rfl, by decide⟩

/-- C3 (amended): on 429 both executors throw RateLimitError whose
retryAfterSeconds is 60 when Retry-After is absent or empty and is the JS
parseInt of the header value otherwise (NaN when the value has no leading
integer); in particular Retry-After: 30 yields 30. -/
theorem c3_rate_limit_retry_after_policy {α β : Type} (c : TenantCredentials)
    (resp1 : HttpResponse α) (resp2 : HttpResponse (List β))
    (hok : jsTruthy c.accessToken = true ∨ jsTruthy c.privateToken = true)
    (h1 : resp1.status = 429) (h2 : resp2.status = 429) :
    request c resp1 =
      .fetched (.error (.rateLimitError "Rate limit exceeded"
        (computeRetryAfter (hGet resp1.headers "Retry-After")))) ∧
    requestWithPagination c resp2 =
      .fetched (.error (.rateLimitError "Rate limit exceeded"
        (computeRetryAfter (hGet resp2.headers "Retry-After")))) ∧
    computeRetryAfter none = .int 60 ∧
    computeRetryAfter (some "") = .int 60 ∧
    (∀ s, s ≠ "" → computeRetryAfter (some s) = jsParseInt s) ∧
    jsParseInt "30" = .int 30 := by
  obtain ⟨hs, hauth⟩ := getAuthHeaders_ok_of_token c hok
  refine ⟨request_throws c resp1 hs _ hauth (classifyStatus_of_429 _ _ _ h1),
          requestWithPagination_throws c resp2 hs _ hauth (classifyStatus_of_429 _ _ _ h2),
          rfl, rfl, ?_, rfl⟩
  intro s hsne
  simp [computeRetryAfter, hsne]

/-- C3 witness: Retry-After: 30 gives retryAfterSeconds 30; no header gives
the default 60. -/
theorem c3_rate_limit_retry_after_policy_witness :
    request sampleCreds (⟨429, [("Retry-After", "30")], .notJson, ()⟩ : HttpResponse Unit) =
      .fetched (.error (.rateLimitError "Rate limit exceeded" (.int 30))) ∧
    request sampleCreds (⟨429, [], .notJson, ()⟩ : HttpResponse Unit) =
      .fetched (.error (.rateLimitError "Rate limit exceeded" (.int 60))) :=
  ⟨(c3_rate_limit_retry_after_policy sampleCreds
      (⟨429, [("Retry-After", "30")], .notJson, ()⟩ : HttpResponse Unit)
      (⟨429, [], .notJson, ([] : List Unit)⟩) (Or.inr rfl) rfl rfl).1,
   (c3_rate_limit_retry_after_policy sampleCreds
      (⟨429, [], .notJson, ()⟩ : HttpResponse Unit)
      (⟨429, [], .notJson, ([] : List Unit)⟩) (Or.inr rfl) rfl rfl).1⟩

/-- C5: every successful list call returns an envelope with count equal to
the number of returned items and hasMore true exactly when nextPage is
defined; the standalone envelope constructor keeps the same two invariants,
except that an explicitly supplied hasMore wins. -/
theorem c5_count_and_hasMore_invariants {α : Type} (c : TenantCredentials)
    (resp : HttpResponse (List α)) (p : PaginatedResponse α)
    (h : requestWithPagination c resp = .fetched (.ok p)) :
    p.count = p.items.length ∧
    p.hasMore = p.nextPage.isSome ∧
    (∀ (items : List α) (opts : CreateOptions),
      (createPaginatedResponse items opts).count = items.length ∧
      (opts.hasMore = none →
        (createPaginatedResponse items opts).hasMore =
          (createPaginatedResponse items opts).nextPage.isSome) ∧
      (∀ b, opts.hasMore = some b → (createPaginatedResponse items opts).hasMore = b)) := by
  have hp := requestWithPagination_ok_inv c resp p h
  subst hp
  refine ⟨rfl, rfl, ?_⟩
  intro items opts
  refine ⟨rfl, ?_, ?_⟩
  · intro hnone
    simp [createPaginatedResponse, hnone]
  · intro b hb
    simp [createPaginatedResponse, hb]

/-- C5 witness: a concrete 200 list response with an X-Next-Page header. -/
theorem c5_count_and_hasMore_invariants_witness :
    (⟨[()], 1, none, true, none, some (.int 2), none⟩ : PaginatedResponse Unit).count =
      (⟨[()], 1, none, true, none, some (.int 2), none⟩ : PaginatedResponse Unit).items.length ∧
    (⟨[()], 1, none, true, none, some (.int 2), none⟩ : PaginatedResponse Unit).hasMore =
      (⟨[()], 1, none, true, none, some (.int 2), none⟩ : PaginatedResponse Unit).nextPage.isSome :=
  have h := c5_count_and_hasMore_invariants sampleCreds
    (⟨200, [("X-Next-Page", "2")], .notJson, [()]⟩ : HttpResponse (List Unit))
    (⟨[()], 1, none, true, none, some (.int 2), none⟩ : PaginatedResponse Unit) rfl
  ⟨h.1, h.2.1⟩

/-- C9: the standalone pagination default policy clamps any perPage above
100 down to exactly 100 and substitutes the default 20 when perPage is
absent. -/
theorem c9_perPage_clamp_and_default (params : PaginationParams) :
    (∀ n : Int, params.perPage = some n → 100 < n →
      (normalizePaginationParams (some params) PAGINATION_DEFAULTS_maxPerPage).perPage = 100) ∧
    (params.perPage = none →
      (normalizePaginationParams (some params) PAGINATION_DEFAULTS_maxPerPage).perPage = 20) ∧
    (normalizePaginationParams none PAGINATION_DEFAULTS_maxPerPage).perPage = 20 := by
  refine ⟨?_, ?_, ?_⟩
  · intro n hn hgt
    have hne : n ≠ 0 := by omega
    simp [normalizePaginationParams, jsOrInt, hn, hne, PAGINATION_DEFAULTS_maxPerPage,
          PAGINATION_DEFAULTS_perPage]
    omega
  · intro hn
    simp [normalizePaginationParams, jsOrInt, hn, PAGINATION_DEFAULTS_maxPerPage,
          PAGINATION_DEFAULTS_perPage]
  · simp [normalizePaginationParams, jsOrInt, PAGINATION_DEFAULTS_maxPerPage,
          PAGINATION_DEFAULTS_perPage]

/-- C9 witness: perPage 150 is clamped to 100; an absent perPage gives 20. -/
theorem c9_perPage_clamp_and_default_witness :
    (normalizePaginationParams (some ⟨some 150, none⟩) PAGINATION_DEFAULTS_maxPerPage).perPage = 100 ∧
    (normalizePaginationParams none PAGINATION_DEFAULTS_maxPerPage).perPage = 20 :=
  ⟨(c9_perPage_clamp_and_default ⟨some 150, none⟩).1 150 rfl (by norm_num),
   (c9_perPage_clamp_and_default ⟨some 150, none⟩).2.2⟩

/-- C4 counterexample: on a 500 whose JSON body has message set to the
empty string and error set to "oops", the thrown GitLabApiError carries
"oops" — the present-but-empty message field is skipped by the JS
truthiness of the fallback chain, while the claim as stated takes the
message field whenever it is present. -/
theorem c4_empty_message_field_falls_through :
    request sampleCreds
      (⟨500, [], .jsonObj (some "") (some "oops"), ()⟩ : HttpResponse Unit) =
      .fetched (.error (.gitLabApiError "oops" 500)) ∧
    JsError.gitLabApiError "oops" 500 ≠ .gitLabApiError "" 500 :=
  ⟨rfl, by decide⟩

/-- C4 (amended): every non-2xx response with status other than 401, 403
and 429 makes both executors throw GitLabApiError carrying the upstream
status and a message that is the body's message field when that is a
non-empty string, else its error field when that is a non-empty string,
else the fallback "API error: status" (used also when the body is not
JSON). -/
theorem c4_api_error_message_policy {α β : Type} (c : TenantCredentials)
    (resp1 : HttpResponse α) (resp2 : HttpResponse (List β))
    (hok : jsTruthy c.accessToken = true ∨ jsTruthy c.privateToken = true)
    (hf1 : respOk resp1.status = false) (hq1 : resp1.status ≠ 429)
    (hq2 : resp1.status ≠ 401) (hq3 : resp1.status ≠ 403)
    (hf2 : respOk resp2.status = false) (hr1 : resp2.status ≠ 429)
    (hr2 : resp2.status ≠ 401) (hr3 : resp2.status ≠ 403) :
    request c resp1 =
      .fetched (.error (.gitLabApiError
        (extractErrorMessage resp1.errorBody resp1.status) resp1.status)) ∧
    requestWithPagination c resp2 =
      .fetched (.error (.gitLabApiError
        (extractErrorMessage resp2.errorBody resp2.status) resp2.status)) ∧
    (∀ st : Nat, extractErrorMessage .notJson st = "API error: " ++ toString st) ∧
    (∀ (st : Nat) (m : String) (e : Option String), m ≠ "" →
      extractErrorMessage (.jsonObj (some m) e) st = m) ∧
    (∀ (st : Nat) (e : String), e ≠ "" →
      extractErrorMessage (.jsonObj none (some e)) st = e ∧
      extractErrorMessage (.jsonObj (some "") (some e)) st = e) ∧
    (∀ st : Nat,
      extractErrorMessage (.jsonObj none none) st = "API error: " ++ toString st ∧
      extractErrorMessage (.jsonObj (some "") (some "")) st = "API error: " ++ toString st) := by
  obtain ⟨hs, hauth⟩ := getAuthHeaders_ok_of_token c hok
  refine ⟨request_throws c resp1 hs _ hauth
            (classifyStatus_of_failure _ _ _ hf1 hq1 hq2 hq3),
          requestWithPagination_throws c resp2 hs _ hauth
            (classifyStatus_of_failure _ _ _ hf2 hr1 hr2 hr3),
          fun st => rfl, ?_, ?_, ?_⟩
  · intro st m e hm
    simp [extractErrorMessage, jsOrString, hm]
  · intro st e he
    exact ⟨by simp [extractErrorMessage, jsOrString, he],
           by simp [extractErrorMessage, jsOrString, he]⟩
  · intro st
    exact ⟨rfl, rfl⟩

/-- C4 witness: a 500 with both fields empty falls back to the generic
message; a 404 with a message field uses it. -/
theorem c4_api_error_message_policy_witness :
    request sampleCreds (⟨500, [], .notJson, ()⟩ : HttpResponse Unit) =
      .fetched (.error (.gitLabApiError "API error: 500" 500)) ∧
    request sampleCreds
      (⟨404, [], .jsonObj (some "404 Project Not Found") none, ()⟩ : HttpResponse Unit) =
      .fetched (.error (.gitLabApiError "404 Project Not Found" 404)) :=
  ⟨(c4_api_error_message_policy sampleCreds
      (⟨500, [], .notJson, ()⟩ : HttpResponse Unit)
      (⟨500, [], .notJson, ([] : List Unit)⟩) (Or.inr rfl)
      rfl (by decide) (by decide) (by decide)
      rfl (by decide) (by decide) (by decide)).1,
   (c4_api_error_message_policy sampleCreds
      (⟨404, [], .jsonObj (some "404 Project Not Found") none, ()⟩ : HttpResponse Unit)
      (⟨500, [], .notJson, ([] : List Unit)⟩) (Or.inr rfl)
      rfl (by decide) (by decide) (by decide)
      rfl (by decide) (by decide) (by decide)).1⟩

/-- C6 counterexample: the list executor does not read X-Page — with
X-Page: 5 present the envelope's page stays undefined — and a malformed
X-Total parses to NaN rather than being left undefined. -/
theorem c6_executor_ignores_x_page :
    requestWithPagination sampleCreds
      (⟨200, [("X-Total", "42"), ("X-Total-Pages", "3"), ("X-Page", "5"), ("X-Next-Page", "2")],
        .notJson, ([] : List Unit)⟩) =
      .fetched (.ok ⟨[], 0, some (.int 42), true, none, some (.int 2), some (.int 3)⟩) ∧
    hGet [("X-Total", "42"), ("X-Total-Pages", "3"), ("X-Page", "5"), ("X-Next-Page", "2")]
      "X-Page" = some "5" ∧
    (some (JsNum.int 5) : Option JsNum) ≠ none ∧
    requestWithPagination sampleCreds
      (⟨200, [("X-Total", "abc")], .notJson, ([] : List Unit)⟩) =
      .fetched (.ok ⟨[], 0, some .nan, false, none, none, none⟩) :=
  ⟨rfl, rfl, by decide, rfl⟩

/-- C6 (amended): after every list-returning call the executor reads the
three headers X-Total, X-Total-Pages and X-Next-Page (X-Page and X-Per-Page
are read only by the standalone parseGitLabPaginationHeaders helper, and the
envelope's page stays undefined), treating each as undefined when absent or
empty and as its JS parseInt value otherwise (NaN when malformed), never
failing; headers X-Total=42, X-Total-Pages=3, X-Next-Page=2 normalize to
total 42, totalPages 3, nextPage 2, hasMore true. -/
theorem c6_pagination_header_normalization {α : Type} (c : TenantCredentials)
    (resp : HttpResponse (List α)) (hs : List (String × String))
    (hauth : getAuthHeaders c = .ok hs) (hok : respOk resp.status = true) :
    requestWithPagination c resp = .fetched (.ok (paginateBody resp.jsonBody resp.headers)) ∧
    (paginateBody resp.jsonBody resp.headers).total =
      parsePaginationHeader resp.headers "X-Total" ∧
    (paginateBody resp.jsonBody resp.headers).totalPages =
      parsePaginationHeader resp.headers "X-Total-Pages" ∧
    (paginateBody resp.jsonBody resp.headers).nextPage =
      parsePaginationHeader resp.headers "X-Next-Page" ∧
    (paginateBody resp.jsonBody resp.headers).page = none ∧
    (paginateBody resp.jsonBody resp.headers).hasMore =
      (parsePaginationHeader resp.headers "X-Next-Page").isSome ∧
    (∀ name, hGet resp.headers name = none →
      parsePaginationHeader resp.headers name = none) ∧
    (∀ name v, hGet resp.headers name = some v → v ≠ "" →
      parsePaginationHeader resp.headers name = some (jsParseInt v)) ∧
    parseGitLabPaginationHeaders resp.headers =
      ⟨parsePaginationHeader resp.headers "X-Total",
       parsePaginationHeader resp.headers "X-Total-Pages",
       parsePaginationHeader resp.headers "X-Page",
       parsePaginationHeader resp.headers "X-Next-Page",
       parsePaginationHeader resp.headers "X-Per-Page"⟩ ∧
    paginateBody resp.jsonBody [("X-Total", "42"), ("X-Total-Pages", "3"), ("X-Next-Page", "2")] =
      ⟨resp.jsonBody, resp.jsonBody.length, some (.int 42), true, none,
       some (.int 2), some (.int 3)⟩ := by
  refine ⟨requestWithPagination_succeeds c resp hs hauth
            (classifyStatus_none_of_ok _ _ _ hok),
          rfl, rfl, rfl, rfl, rfl, ?_, ?_, rfl, rfl⟩
  · intro name hname
    simp [parsePaginationHeader, hname]
  · intro name v hv hvne
    simp [parsePaginationHeader, hv, hvne]

/-- C6 witness: the round-trip example from the spec on a concrete 200
response. -/
theorem c6_pagination_header_normalization_witness :
    requestWithPagination sampleCreds
      (⟨200, [("X-Total", "42"), ("X-Total-Pages", "3"), ("X-Next-Page", "2")],
        .notJson, ([] : List Unit)⟩) =
      .fetched (.ok ⟨[], 0, some (.int 42), true, none, some (.int 2), some (.int 3)⟩) :=
  (c6_pagination_header_normalization sampleCreds
    (⟨200, [("X-Total", "42"), ("X-Total-Pages", "3"), ("X-Next-Page", "2")],
      .notJson, ([] : List Unit)⟩)
    [("PRIVATE-TOKEN", "secret"), ("Content-Type", "application/json")]
    rfl rfl).1

/-- C1 counterexample: with neither token header, the boundary's
validateCredentials throws a plain Error (the generic JS Error class), not
an AuthenticationError as the claim states. -/
theorem c1_boundary_error_is_plain_not_authentication :
    validateCredentials ⟨none, none, none⟩ = .error (.jsError missingCredsMsg) ∧
    (JsError.jsError missingCredsMsg).isAuthenticationError = false :=
  ⟨rfl, rfl⟩

/-- C1 (amended): for every inbound request carrying neither token header,
credential resolution fails before any HTTP call is attempted — the
boundary catches the plain Error thrown by validateCredentials and answers
401 without constructing a client, and the client invoked directly throws
AuthenticationError from getAuthHeaders before the transport is reached —
but the boundary's own error is a plain Error, not an AuthenticationError. -/
theorem c1_missing_tokens_fail_before_any_fetch (c : TenantCredentials)
    (hp : jsTruthy c.privateToken = false) (ha : jsTruthy c.accessToken = false) :
    mcpBoundary c = .rejected 401 missingCredsMsg ∧
    (∀ (α : Type) (resp : HttpResponse α), request c resp = .noFetch noCredsError) ∧
    (∀ (α : Type) (resp : HttpResponse (List α)),
      requestWithPagination c resp = .noFetch noCredsError) ∧
    noCredsError.isAuthenticationError = true := by
  refine ⟨?_, ?_, ?_, rfl⟩
  · simp [mcpBoundary, validateCredentials, hp, ha, JsError.message]
  · intro α resp
    simp [request, getAuthHeaders, hp, ha]
  · intro α resp
    simp [requestWithPagination, getAuthHeaders, hp, ha]

/-- C1 witness: the empty credential record is rejected at the boundary and
never reaches the transport when handed to the client directly. -/
theorem c1_missing_tokens_fail_before_any_fetch_witness :
    mcpBoundary ⟨none, none, none⟩ = .rejected 401 missingCredsMsg ∧
    request ⟨none, none, none⟩ (⟨500, [], .notJson, ()⟩ : HttpResponse Unit) =
      .noFetch noCredsError :=
  have h := c1_missing_tokens_fail_before_any_fetch ⟨none, none, none⟩ rfl rfl
  ⟨h.1, h.2.1 Unit ⟨500, [], .notJson, ()⟩⟩

/-- C7: the outbound request carries exactly one authentication header —
Bearer whenever the access token is truthy (also when both tokens are
present), else PRIVATE-TOKEN, and with neither token the client fails
before the transport instead of sending an unauthenticated request. -/
theorem c7_exactly_one_auth_header (c : TenantCredentials) :
    (∀ t, c.accessToken = some t → t ≠ "" →
      getAuthHeaders c =
        .ok [("Authorization", "Bearer " ++ t), ("Content-Type", "application/json")]) ∧
    (jsTruthy c.accessToken = false → ∀ t, c.privateToken = some t → t ≠ "" →
      getAuthHeaders c =
        .ok [("PRIVATE-TOKEN", t), ("Content-Type", "application/json")]) ∧
    (∀ hs, getAuthHeaders c = .ok hs → countAuthHeaders hs = 1) ∧
    (jsTruthy c.accessToken = false → jsTruthy c.privateToken = false →
      ∀ (α β : Type) (r1 : HttpResponse α) (r2 : HttpResponse (List β)),
        request c r1 = .noFetch noCredsError ∧
        requestWithPagination c r2 = .noFetch noCredsError) := by
  refine ⟨?_, ?_, ?_, ?_⟩
  · intro t ht htne
    have hts : jsTruthy (some t) = true := by simp [jsTruthy, htne]
    simp [getAuthHeaders, ht, hts]
  · intro hfa t ht htne
    have hts : jsTruthy (some t) = true := by simp [jsTruthy, htne]
    simp [getAuthHeaders, hfa, ht, hts]
  · intro hs h
    by_cases hta : jsTruthy c.accessToken
    · simp [getAuthHeaders, hta] at h
      subst h
      rfl
    · by_cases htp : jsTruthy c.privateToken
      · simp [getAuthHeaders, hta, htp] at h
        subst h
        rfl
      · simp [getAuthHeaders, hta, htp] at h
  · intro hfa hfp α β r1 r2
    exact ⟨by simp [request, getAuthHeaders, hfa, hfp],
           by simp [requestWithPagination, getAuthHeaders, hfa, hfp]⟩

/-- C7 witness: with both tokens present the bearer wins; with only the
private token the PRIVATE-TOKEN scheme is used; with neither the call
fails before the transport. -/
theorem c7_exactly_one_auth_header_witness :
    getAuthHeaders ⟨some "ptoken", none, some "atoken"⟩ =
      .ok [("Authorization", "Bearer atoken"), ("Content-Type", "application/json")] ∧
    getAuthHeaders ⟨some "ptoken", none, none⟩ =
      .ok [("PRIVATE-TOKEN", "ptoken"), ("Content-Type", "application/json")] ∧
    request ⟨none, none, none⟩ (⟨200, [], .notJson, ()⟩ : HttpResponse Unit) =
      .noFetch noCredsError :=
  ⟨(c7_exactly_one_auth_header ⟨some "ptoken", none, some "atoken"⟩).1 "atoken" rfl (by decide),
   (c7_exactly_one_auth_header ⟨some "ptoken", none, none⟩).2.1 rfl "ptoken" rfl (by decide),
   ((c7_exactly_one_auth_header ⟨none, none, none⟩).2.2.2 rfl rfl Unit Unit
     ⟨200, [], .notJson, ()⟩ ⟨200, [], .notJson, ([] : List Unit)⟩).1⟩

/-- C8: testConnection is total and its message is never empty; a
successful getCurrentUser outcome yields connected true with a message
carrying the username, and every thrown error is converted into connected
false with the error's (non-empty) message. -/
theorem c8_testConnection_never_throws (c : TenantCredentials)
    (resp : HttpResponse GitLabUser) :
    (testConnection c resp).message ≠ "" ∧
    (∀ u, request c resp = .fetched (.ok (some u)) →
      testConnection c resp = ⟨true, "Connected as " ++ u.username, some u⟩) ∧
    (∀ e, request c resp = .noFetch e ∨ request c resp = .fetched (.error e) →
      testConnection c resp = ⟨false, e.message, none⟩) := by
  refine ⟨?_, ?_, ?_⟩
  · cases hreq : request c resp with
    | noFetch e =>
      have he := request_noFetch_inv c resp e hreq
      subst he
      simp [testConnection, hreq, noCredsError, JsError.message]
    | fetched r =>
      cases r with
      | error e =>
        have hcl := request_error_inv c resp e hreq
        have hne := classifyStatus_message_ne_empty _ _ _ _ hcl
        simpa [testConnection, hreq] using hne
      | ok o =>
        cases o with
        | none => simp [testConnection, hreq]
        | some u =>
          simp only [testConnection, hreq]
          exact append_ne_empty_of_left _ _ (by decide)
  · intro u h
    simp [testConnection, h]
  · intro e h
    rcases h with h | h <;> simp [testConnection, h]

/-- C8 witness: a 200 /user response connects with a username-bearing
message, and a transport stuck on 500 resolves to connected false with a
non-empty message instead of throwing. -/
theorem c8_testConnection_never_throws_witness :
    testConnection sampleCreds (⟨200, [], .notJson, ⟨1, "alice", "Alice"⟩⟩) =
      ⟨true, "Connected as alice", some ⟨1, "alice", "Alice"⟩⟩ ∧
    testConnection sampleCreds (⟨500, [], .notJson, ⟨1, "alice", "Alice"⟩⟩) =
      ⟨false, "API error: 500", none⟩ :=
  ⟨(c8_testConnection_never_throws sampleCreds
      (⟨200, [], .notJson, ⟨1, "alice", "Alice"⟩⟩)).2.1 ⟨1, "alice", "Alice"⟩ rfl,
   (c8_testConnection_never_throws sampleCreds
      (⟨500, [], .notJson, ⟨1, "alice", "Alice"⟩⟩)).2.2
     (.gitLabApiError "API error: 500" 500) (Or.inr rfl)⟩

/-- C10: every project or group identifier is URL-encoded into a single
path segment — the encoded form contains no slash, so the built path
splits into exactly the fixed segments plus one segment holding the whole
identifier; in particular "group/sub-project" becomes
"group%2Fsub-project" and is not split in two. -/
theorem c10_identifier_single_path_segment (projectId branchName : String) :
    getProjectPath projectId = "/projects/" ++ encodeURIComponent projectId ∧
    splitSlash (getProjectPath projectId).data =
      [[], "projects".data, (encodeURIComponent projectId).data] ∧
    getBranchPath projectId branchName =
      "/projects/" ++ encodeURIComponent projectId ++ "/repository/branches/" ++
        encodeURIComponent branchName ∧
    encodeURIComponent "group/sub-project" = "group%2Fsub-project" ∧
    splitSlash (getProjectPath "group/sub-project").data =
      [[], "projects".data, "group%2Fsub-project".data] := by
  have henc : '/' ∉ (encodeURIComponent projectId).data := encodeChars_no_slash _
  have hdata : (getProjectPath projectId).data =
      '/' :: ("projects".data ++ '/' :: (encodeURIComponent projectId).data) := rfl
  refine ⟨rfl, ?_, rfl, rfl, ?_⟩
  · rw [hdata]
    have h1 : splitSlash ('/' :: ("projects".data ++ '/' ::
        (encodeURIComponent projectId).data)) =
        [] :: splitSlash ("projects".data ++ '/' ::
          (encodeURIComponent projectId).data) := by
      simp [splitSlash]
    rw [h1, splitSlash_append _ _ (by decide), splitSlash_no_slash _ henc]
  · rfl

end GitlabMcp
